import Mathlib

/-!
Verification of the MATLAB source-model extractor in
`sphinxcontrib/mat_types.py`.

The Python module parses a pre-tokenized MATLAB source stream (Pygments
tokens, i.e. pairs of a token category and its raw text) into structured
entities: `MatFunction`, `MatClass` (with attributes, bases, properties
and methods), `MatScript`, and `MatModule` objects resolved from the
filesystem by `MatObject.matlabify`.

This file is a shallow embedding of that code.  Token streams are
`List Tok`; the index-stepping loops of the Python code become fueled
structural recursions (the fuel value `tokens.length + 1` is always
sufficient for every terminating path, since every loop iteration of the
source advances the index by at least one; the distinguished error
`PErr.fuel` is produced only when a source loop would run forever);
exceptions become the `Except PErr` monad; out-of-range list indexing,
which raises `IndexError` in Python, becomes `PErr.indexError`.
-/

set_option linter.unusedVariables false

deriving instance DecidableEq for Except

/-- Pygments token categories compared by identity (`is`) in the source.
`Token.Text.Whitespace` is a distinct singleton from `Token.Text`, so the
source's `tokens[idx][0] is Token.Text` test is false on whitespace-category
tokens; the embedding keeps them as distinct constructors. -/
inductive TokT
  | Keyword
  | Text
  | TextWhitespace
  | Punctuation
  | Name
  | NameFunction
  | Comment
  | Operator
  | Number
deriving DecidableEq

/-- A Pygments token: `(category, raw text)`. -/
abbrev Tok := TokT × String

/-- Errors raised by the embedded code.  `typeError`/`exception` carry the
message built by the source; `indexError` models Python's `IndexError` on
out-of-range token access; `attributeError` models the `AttributeError`
raised by calling `.append` on a non-list value; `fuel` is produced only
when a source loop fails to make progress (it never occurs on a
terminating run of the source). -/
inductive PErr
  | typeError (msg : String)
  | exception (msg : String)
  | indexError
  | attributeError
  | fuel
deriving DecidableEq

/-- The characters stripped by Python's argument-less `str.strip()`. -/
def pyWsChars : List Char := [' ', '\t', '\n', '\r', '\x0b', '\x0c']

/-- Python `s.lstrip(cs)`: drop the given characters from the left end. -/
def pyLStripChars (cs : List Char) (s : String) : String :=
  ⟨s.data.dropWhile (fun c => cs.contains c)⟩

/-- Python `s.rstrip(cs)`: drop the given characters from the right end. -/
def pyRStripChars (cs : List Char) (s : String) : String :=
  ⟨(s.data.reverse.dropWhile (fun c => cs.contains c)).reverse⟩

/-- Python `s.strip(cs)`. -/
def pyStripChars (cs : List Char) (s : String) : String :=
  pyRStripChars cs (pyLStripChars cs s)

/-- Python `s.strip()` (whitespace). -/
def pyStrip (s : String) : String := pyStripChars pyWsChars s

/-- Python `s.rstrip()` (whitespace). -/
def pyRStrip (s : String) : String := pyRStripChars pyWsChars s

/-- Split a character list at every occurrence of `c` (Python `str.split(c)`:
`"".split(',') = ['']`, `"a,b".split(',') = ['a','b']`). -/
def splitCharAux (c : Char) : List Char → List (List Char)
  | [] => [[]]
  | x :: xs =>
    let r := splitCharAux c xs
    if x == c then [] :: r
    else
      match r with
      | [] => [[x]]
      | y :: ys => (x :: y) :: ys

/-- Python `s.split(c)` for a single-character separator. -/
def pySplitChar (c : Char) (s : String) : List String :=
  (splitCharAux c s.data).map (fun l => ⟨l⟩)

/-!
## The function parser: `MatFunction.__init__`

The source copies and reverses the token list and consumes it with
`tks.pop()`; the embedding consumes the head of a forward list, which is
the same operation.  `tks.pop()` on an exhausted list raises `IndexError`.
-/

/-- `MatFunction.mat_kws`: MATLAB keywords that increment the keyword-`end`
pair count. -/
def matKws : List Tok :=
  [(.Keyword, "if"), (.Keyword, "while"), (.Keyword, "for"),
   (.Keyword, "switch"), (.Keyword, "try")]

/-- One step of the main-body counter update of `MatFunction.__init__`:
`kw in mat_kws` increments; `kw == (Keyword, 'end')` decrements unless the
previous token `lastkw` is `(Punctuation, ':')` or `(Punctuation, '(')`.
`lastkw = none` models the initial placeholder `lastkw = ''`. -/
def stepKwEnd (lastkw : Option Tok) (kw : Tok) (n : Nat) : Nat :=
  if matKws.contains kw then n + 1
  else if kw == ((.Keyword, "end") : Tok) &&
      !(lastkw == some ((.Punctuation, ":") : Tok) ||
        lastkw == some ((.Punctuation, "(") : Tok)) then n - 1
  else n

/-- The main-body scan of `MatFunction.__init__`
(`while kw_end > 0: ...`): processes the current token `kw`, pops the next
token, and on exit (counter zero, or `IndexError` on an empty stack) pushes
the last token back (`tks.append(kw)`), returning the remaining tokens.  -/
def bodyScan (lastkw : Option Tok) (kw : Tok) (kwEnd : Nat) (tks : List Tok) :
    List Tok :=
  if kwEnd == 0 then kw :: tks
  else
    match tks with
    | [] => [kw]
    | t :: rest => bodyScan (some kw) t (stepKwEnd lastkw kw kwEnd) rest

/-- The docstring loop of `MatFunction.__init__` after the first comment
has been consumed: pop a token, skip `(Text, ' '/'\t'/'\n')` tokens, then
either accumulate another comment line (marker `%` left-stripped, newline
appended) or stop, returning the accumulated docstring, the last popped
token, and the rest of the stream. -/
def docAfter : List Tok → String → Except PErr (String × Tok × List Tok)
  | [], _ => .error .indexError
  | w :: rest, acc =>
    if w.1 == .Text && ([" ", "\t", "\n"] : List String).contains w.2 then
      docAfter rest acc
    else if w.1 == .Comment then
      docAfter rest (acc ++ pyLStripChars ['%'] w.2 ++ "\n")
    else .ok (acc, w, rest)

/-- Entry of the docstring phase: the first popped token goes straight to
the comment test (`docstring = tks.pop(); while docstring[0] is Comment`). -/
def docLoop : List Tok → String → Except PErr (String × Tok × List Tok)
  | [], _ => .error .indexError
  | d :: rest, acc =>
    if d.1 == .Comment then
      docAfter rest (acc ++ pyLStripChars ['%'] d.2 ++ "\n")
    else .ok (acc, d, rest)

/-- Result of the signature phase: resolved function name, output names,
input names, and the unconsumed rest of the stream. -/
abbrev SigRes := String × Option (List String) × Option (List String) × List Tok

/-- Final whitespace pop of the signature
(`if tks.pop()[0] is not Token.Text.Whitespace: raise`). -/
def finalWs (name : String) (retv args : Option (List String))
    (tks : List Tok) : Except PErr SigRes :=
  match tks with
  | [] => .error .indexError
  | w2 :: t9 =>
    if w2.1 == .TextWhitespace then .ok (name, retv, args, t9)
    else .error (.typeError "Expected a whitespace after input args.")

/-- Function-name and input-args phases of `MatFunction.__init__`.  The
name token is compared against `(Token.Name.Function, self.name)`; on
mismatch a `MatMethod` (`isMethod = true`, where `declName = none` models
`self.name = None`) adopts the signature's own name, a `MatFunction`
raises.  The token after the name is popped unconditionally; if it is
`(`, the next token is taken as the comma-separated input list (only when
its category is `Text`) and `)` is required after it. -/
def afterRetv (isMethod : Bool) (declName : Option String)
    (retv : Option (List String)) (tks : List Tok) : Except PErr SigRes :=
  match tks with
  | [] => .error .indexError
  | fn :: t5 =>
    if fn.1 == .NameFunction && some fn.2 == declName then
      afterName fn.2 retv t5
    else if isMethod then
      afterName fn.2 retv t5
    else
      .error (.exception ("Unexpected function name: \"" ++ fn.2 ++ "\"."))
where
  afterName (name : String) (retv : Option (List String)) (tks : List Tok) :
      Except PErr SigRes :=
    match tks with
    | [] => .error .indexError
    | op :: t6 =>
      if op == ((.Punctuation, "(") : Tok) then
        match t6 with
        | [] => .error .indexError
        | ar :: t7 =>
          match t7 with
          | [] => .error .indexError
          | cp :: t8 =>
            if cp == ((.Punctuation, ")") : Tok) then
              finalWs name retv
                (if ar.1 == .Text then
                   some ((pySplitChar ',' ar.2).map pyStrip)
                 else none) t8
            else .error (.typeError "Token after outputs should be Punctuation.")
      else finalWs name retv none t6

/-- Signature phase of `MatFunction.__init__`: `function` keyword, a
whitespace token, optional output list (a `Text` token holding the
bracketed/unbracketed comma-separated outputs, followed by `=` and an
optional whitespace that is pushed back if absent), then name/args via
`afterRetv`. -/
def parseSigPhase (isMethod : Bool) (declName : Option String)
    (tks : List Tok) : Except PErr SigRes :=
  match tks with
  | [] => .error .indexError
  | fk :: t1 =>
    if fk.1 == .Keyword && pyStrip fk.2 == "function" then
      match t1 with
      | [] => .error .indexError
      | w1 :: t2 =>
        if w1.1 == .TextWhitespace then
          match t2 with
          | [] => .error .indexError
          | rv :: t3 =>
            if rv.1 == .Text then
              match t3 with
              | [] => .error .indexError
              | eqt :: t4 =>
                if eqt == ((.Punctuation, "=") : Tok) then
                  match t4 with
                  | [] => .error .indexError
                  | wh :: t5 =>
                    afterRetv isMethod declName
                      (some ((pySplitChar ','
                        (pyStripChars ['[', ' ', ']'] rv.2)).map pyStrip))
                      (if wh.1 == .TextWhitespace then t5 else wh :: t5)
                else .error (.typeError "Token after outputs should be Punctuation.")
            else afterRetv isMethod declName none t3
        else .error (.typeError "Expected a whitespace after function keyword.")
    else .error (.typeError "Object is not a function. Expected a function.")

/-- The entity built by `MatFunction.__init__` (also used for
`MatMethod`): `tokens` is the full input slice (`self.tokens`), `rem_tks`
the tokens remaining after the function's own body
(`None` when nothing was left). -/
structure FuncEnt where
  name : String
  module : String
  tokens : List Tok
  retv : Option (List String)
  args : Option (List String)
  docstring : String
  rem_tks : Option (List Tok)
deriving DecidableEq

/-- `MatFunction.__init__` / `MatMethod.__init__`: signature, docstring,
then the keyword-`end` balanced body scan starting with counter 1.
Whatever the scan leaves (with the last popped token pushed back) is saved
to `rem_tks` when nonempty (`if len(tks) > 0: self.rem_tks = tks`). -/
def parseMatFunctionAux (isMethod : Bool) (declName : Option String)
    (modname : String) (tokens : List Tok) : Except PErr FuncEnt :=
  match parseSigPhase isMethod declName tokens with
  | .error e => .error e
  | .ok (name, retv, args, t8) =>
    match docLoop t8 "" with
    | .error e => .error e
    | .ok (doc, kw, t9) =>
      .ok { name := name, module := modname, tokens := tokens, retv := retv,
            args := args, docstring := doc,
            rem_tks :=
              match bodyScan none kw 1 t9 with
              | [] => none
              | t :: rest => some (t :: rest) }

/-- Python `l[:-n]` (note `l[:-0] = []`). -/
def pySliceDropLast {α : Type} (l : List α) (n : Nat) : List α :=
  if n == 0 then [] else l.take (l.length - n)

/-- `MatMethod.reset_tokens`: the number of tokens the method consumed,
computed as `len(self.tokens) - len(self.rem_tks)`; trims the method's
own token list and clears `rem_tks`.  `len(None)` raises `TypeError`. -/
def resetTokens (f : FuncEnt) : Except PErr (Nat × FuncEnt) :=
  match f.rem_tks with
  | none => .error (.typeError "object of type NoneType has no len()")
  | some r =>
    let numRemTks := r.length
    let lenMeth := f.tokens.length - numRemTks
    .ok (lenMeth,
      { f with tokens := pySliceDropLast f.tokens numRemTks, rem_tks := none })

/-!
## Token-cursor helpers of `MatMixin`

The class parser steps an index `idx` over `self.tokens`.  Every helper
reads `self.tokens[idx]`, so an out-of-range index raises `IndexError`.
-/

/-- Positional lookup (`l[i]`, `None` past the end). -/
def tokGet : List Tok → Nat → Option Tok
  | [], _ => none
  | t :: _, 0 => some t
  | _ :: rest, n + 1 => tokGet rest n

/-- `self.tokens[idx]`, raising `IndexError` when out of range. -/
def tkAt (ts : List Tok) (i : Nat) : Except PErr Tok :=
  match tokGet ts i with
  | some t => .ok t
  | none => .error .indexError

/-- `MatMixin._tk_eq`: category identity and text equality. -/
def tkEq (ts : List Tok) (i : Nat) (tok : Tok) : Except PErr Bool := do
  let t ← tkAt ts i
  pure (t.1 == tok.1 && t.2 == tok.2)

/-- `MatMixin._tk_ne`. -/
def tkNe (ts : List Tok) (i : Nat) (tok : Tok) : Except PErr Bool := do
  let t ← tkAt ts i
  pure (!(t.1 == tok.1 && t.2 == tok.2))

/-- Count of contiguous `(Token.Text, ' ' | '\t')` tokens starting at the
head; the terminating read past the run is part of the loop condition, so
running off the end of the stream raises `IndexError`. -/
def indentGo : List Tok → Except PErr Nat
  | [] => .error .indexError
  | t :: rest =>
    if t.1 == .Text && ([" ", "\t"] : List String).contains t.2 then do
      let n ← indentGo rest
      pure (n + 1)
    else .ok 0

/-- `MatMixin._indent` (= `_blanks`): indentation count at index `i`. -/
def indentCount (ts : List Tok) (i : Nat) : Except PErr Nat :=
  indentGo (ts.drop i)

/-- `MatMixin._blanks` is an alias of `_indent`. -/
def blanksCount (ts : List Tok) (i : Nat) : Except PErr Nat :=
  indentCount ts i

/-- Count of contiguous `(Token.Text, ' ' | '\n' | '\t')` tokens. -/
def whitespaceGo : List Tok → Except PErr Nat
  | [] => .error .indexError
  | t :: rest =>
    if t.1 == .Text && ([" ", "\n", "\t"] : List String).contains t.2 then do
      let n ← whitespaceGo rest
      pure (n + 1)
    else .ok 0

/-- `MatMixin._whitespace`. -/
def whitespaceCount (ts : List Tok) (i : Nat) : Except PErr Nat :=
  whitespaceGo (ts.drop i)

/-- Python dict assignment `d[k] = v` on an association list
(overwrite an existing key, otherwise append). -/
def updateAssoc {α : Type} : List (String × α) → String → α → List (String × α)
  | [], k, v => [(k, v)]
  | (k0, v0) :: rest, k, v =>
    if k0 == k then (k0, v) :: rest else (k0, v0) :: updateAssoc rest k v

/-- Python dict lookup `d.get(k)`. -/
def lookupAssoc {α : Type} : List (String × α) → String → Option α
  | [], _ => none
  | (k0, v0) :: rest, k => if k0 == k then some v0 else lookupAssoc rest k

/-!
## The attribute-list parser: `MatClass.attributes`
-/

/-- The value type recorded in a recognized-attribute table
(`bool`, `list` in `cls_attr_types` etc.); the parser itself only tests
key membership. -/
inductive AttrKind
  | bool
  | list
deriving DecidableEq

/-- `MatClass.cls_attr_types`. -/
def clsAttrTypes : List (String × AttrKind) :=
  [("Abstract", .bool), ("AllowedSubclasses", .list), ("ConstructOnLoad", .bool),
   ("HandleCompatible", .bool), ("Hidden", .bool), ("InferiorClasses", .list),
   ("Sealed", .bool)]

/-- `MatClass.prop_attr_types`. -/
def propAttrTypes : List (String × AttrKind) :=
  [("AbortSet", .bool), ("Abstract", .bool), ("Access", .list),
   ("Constant", .bool), ("Dependent", .bool), ("GetAccess", .list),
   ("GetObservable", .bool), ("Hidden", .bool), ("SetAccess", .list),
   ("SetObservable", .bool), ("Transient", .bool)]

/-- `MatClass.meth_attr_types`. -/
def methAttrTypes : List (String × AttrKind) :=
  [("Abstract", .bool), ("Access", .list), ("Hidden", .bool),
   ("Sealed", .list), ("Static", .bool)]

/-- A parsed attribute value.  `attributes` stores `True`/`False` booleans
and concatenated identifier strings; the `list` constructor exists because
the cell-array branch calls `.append` on the stored value, which only
succeeds on a Python list. -/
inductive AttrVal
  | bool (b : Bool)
  | str (s : String)
  | list (vs : List String)
deriving DecidableEq

/-- Python `attr_dict[attr_name].append(v)`: appends when the stored value
is a list, raises `AttributeError` otherwise (booleans and strings have no
`append`). -/
def pyAppend (dict : List (String × AttrVal)) (k v : String) :
    Except PErr (List (String × AttrVal)) :=
  match lookupAssoc dict k with
  | some (.list vs) => .ok (updateAssoc dict k (.list (vs ++ [v])))
  | some _ => .error .attributeError
  | none => .error (.exception ("KeyError: " ++ k))

/-- The enumeration/meta-class concatenation loop: concatenate token texts
until a blank, tab, comma or closing parenthesis. -/
def enumConcat (ts : List Tok) : Nat → Nat → String → Except PErr (String × Nat)
  | 0, _, _ => .error .fuel
  | fuel + 1, idx, acc => do
    let a ← tkNe ts idx (.Text, " ")
    let b ← tkNe ts idx (.Text, "\t")
    let c ← tkNe ts idx (.Punctuation, ",")
    let d ← tkNe ts idx (.Punctuation, ")")
    if a && b && c && d then do
      let t ← tkAt ts idx
      enumConcat ts fuel (idx + 1) (acc ++ t.2)
    else pure (acc, idx)

/-- The inner value scan of the cell-array branch: concatenate token texts
until a blank, tab or comma (note: a closing brace does **not** stop it). -/
def cellValScan (ts : List Tok) : Nat → Nat → String → Except PErr (String × Nat)
  | 0, _, _ => .error .fuel
  | fuel + 1, idx, acc => do
    let a ← tkNe ts idx (.Text, " ")
    let b ← tkNe ts idx (.Text, "\t")
    let c ← tkNe ts idx (.Punctuation, ",")
    if a && b && c then do
      let t ← tkAt ts idx
      cellValScan ts fuel (idx + 1) (acc ++ t.2)
    else pure (acc, idx)

/-- The cell-array loop of `MatClass.attributes`
(`while self._tk_ne(idx, (Token.Punctuation, '}')) ...`): collect a value,
step past the delimiter, and `attr_dict[attr_name].append(attr_val)` when
the value is nonempty. -/
def cellLoop (ts : List Tok) (attrName : String) :
    Nat → Nat → List (String × AttrVal) → Except PErr (List (String × AttrVal) × Nat)
  | 0, _, _ => .error .fuel
  | fuel + 1, idx, dict => do
    let ne ← tkNe ts idx (.Punctuation, "\x7d")
    if ne then do
      let b ← blanksCount ts idx
      let idx := idx + b
      let (v, idx) ← cellValScan ts (ts.length + 1) idx ""
      let idx := idx + 1
      if v.isEmpty then cellLoop ts attrName fuel idx dict
      else do
        let dict ← pyAppend dict attrName v
        cellLoop ts attrName fuel idx dict
    else pure (dict, idx + 1)

/-- The attribute-entry loop of `MatClass.attributes`
(`while self._tk_ne(idx, (Token.Punctuation, ')')) ...`). -/
def attrLoop (ts : List Tok) (attrNames : List String) :
    Nat → Nat → List (String × AttrVal) → Except PErr (List (String × AttrVal) × Nat)
  | 0, _, _ => .error .fuel
  | fuel + 1, idx, dict => do
    let ne ← tkNe ts idx (.Punctuation, ")")
    if ne then do
      let b ← blanksCount ts idx
      let idx := idx + b
      let t ← tkAt ts idx
      if t.1 == .Name && attrNames.contains t.2 then do
        let attrName := t.2
        let dict := updateAssoc dict attrName (.bool true)
        let idx := idx + 1
        let b2 ← blanksCount ts idx
        let idx := idx + b2
        let cm ← tkEq ts idx (.Punctuation, ",")
        if cm then
          attrLoop ts attrNames fuel (idx + 1) dict
        else do
          let eq ← tkEq ts idx (.Punctuation, "=")
          if eq then do
            let idx := idx + 1
            let b3 ← blanksCount ts idx
            let idx := idx + b3
            let t2 ← tkAt ts idx
            let (dict, idx) ←
              if t2.1 == .Name && (["true", "false"] : List String).contains t2.2 then
                pure
                  (if t2.2 == "false" then updateAssoc dict attrName (.bool false)
                   else dict, idx + 1)
              else do
                let qm ← tkEq ts idx (.Text, "?")
                if t2.1 == .Name || qm then do
                  let (s, idx2) ← enumConcat ts (ts.length + 1) (idx + 1) t2.2
                  let np ← tkNe ts idx2 (.Punctuation, ")")
                  pure (updateAssoc dict attrName (.str s),
                        if np then idx2 + 1 else idx2)
                else do
                  let ob ← tkEq ts idx (.Punctuation, "\x7b")
                  if ob then
                    cellLoop ts attrName (ts.length + 1) (idx + 1) dict
                  else
                    pure (dict, idx)
            let b4 ← blanksCount ts idx
            let idx := idx + b4
            let cm2 ← tkEq ts idx (.Punctuation, ",")
            attrLoop ts attrNames fuel (if cm2 then idx + 1 else idx) dict
          else
            attrLoop ts attrNames fuel idx dict
      else
        throw (.exception ("Unexpected attribute: \"" ++ t.2 ++ "\"."))
    else
      pure (dict, idx + 1)

/-- `MatClass.attributes(idx, attr_types)`: skip blanks; without an opening
parenthesis return the empty map; otherwise run the attribute-entry loop
and return the map together with the index just past `)`. -/
def attributes (ts : List Tok) (attrTypes : List (String × AttrKind))
    (idx : Nat) : Except PErr (List (String × AttrVal) × Nat) := do
  let b ← blanksCount ts idx
  let idx := idx + b
  let e ← tkEq ts idx (.Punctuation, "(")
  if e then
    attrLoop ts (attrTypes.map Prod.fst) (ts.length + 1) (idx + 1) []
  else
    pure ([], idx)

/-!
## The class parser: `MatClass.__init__`
-/

/-- One property record of `MatClass.properties`.  `defaultVal` models the
`'default'` dict key: `none` = key absent (an `=` whose captured text was
empty), `some none` = key present holding `None` (no `=` at all),
`some (some s)` = captured raw default text.  `docstringVal` models the
`'docstring'` key, which is always written (`None` or the comment text). -/
structure PropEnt where
  attrs : List (String × AttrVal)
  defaultVal : Option (Option String)
  docstringVal : Option String
deriving DecidableEq

/-- A `MatMethod`: the parsed function entity plus the attribute map of
its enclosing `methods` block. -/
structure MethodEnt where
  func : FuncEnt
  attrs : List (String × AttrVal)
deriving DecidableEq

/-- The mutable `properties`/`methods` dictionaries built by the class
body loop. -/
structure ClassState where
  properties : List (String × PropEnt)
  methods : List (String × MethodEnt)
deriving DecidableEq

/-- The entity built by `MatClass.__init__`.  `rem_tks` holds the source's
`self.rem_tks = idx`: the index of the class's closing `end` token. -/
structure ClassEnt where
  name : String
  module : String
  attrs : List (String × AttrVal)
  bases : List String
  docstring : String
  properties : List (String × PropEnt)
  methods : List (String × MethodEnt)
  rem_tks : Nat
deriving DecidableEq

/-- The superclass-name concatenation (`while not self._whitespace(idx)`).
Token texts are concatenated until a whitespace token is reached. -/
def basesNameScan (ts : List Tok) : Nat → Nat → String → Except PErr (String × Nat)
  | 0, _, _ => .error .fuel
  | fuel + 1, idx, acc => do
    let w ← whitespaceCount ts idx
    if w == 0 then do
      let t ← tkAt ts idx
      basesNameScan ts fuel (idx + 1) (acc ++ t.2)
    else pure (acc, idx)

/-- The superclass loop of `MatClass.__init__`
(`while self._tk_ne(idx, (Token.Text, '\n'))`): skip blanks, concatenate a
base name, step past its terminator unless it is the newline, append
nonempty names, skip blanks and an `&` separator; the terminating newline
is consumed on exit. -/
def basesLoop (ts : List Tok) : Nat → Nat → List String → Except PErr (List String × Nat)
  | 0, _, _ => .error .fuel
  | fuel + 1, idx, bases => do
    let ne ← tkNe ts idx (.Text, "\n")
    if ne then do
      let b ← blanksCount ts idx
      let idx := idx + b
      let (bn, idx) ← basesNameScan ts (ts.length + 1) idx ""
      let nl ← tkNe ts idx (.Text, "\n")
      let idx := if nl then idx + 1 else idx
      let bases := if bn.isEmpty then bases else bases ++ [bn]
      let b2 ← blanksCount ts idx
      let idx := idx + b2
      let amp ← tkEq ts idx (.Operator, "&")
      basesLoop ts fuel (if amp then idx + 1 else idx) bases
    else pure (bases, idx + 1)

/-- Signature phases of `MatClass.__init__`: the `classdef` keyword, the
class attribute list, the class name (which must equal the declared name),
and the superclass list; returns the attributes, bases and the index of
the first token after the signature line. -/
def classSigPhase (name : String) (tokens : List Tok) :
    Except PErr (List (String × AttrVal) × List String × Nat) := do
  let ne ← tkNe tokens 0 (.Keyword, "classdef")
  if ne then
    throw (.typeError "Object is not a class. Expected a class.")
  else do
    let (attrs, idx) ← attributes tokens clsAttrTypes 1
    let b ← blanksCount tokens idx
    let idx := idx + b
    let ne2 ← tkNe tokens idx (.Name, name)
    if ne2 then do
      let t ← tkAt tokens idx
      throw (.exception ("Unexpected class name: \"" ++ t.2 ++ "\"."))
    else do
      let idx := idx + 1
      let b2 ← blanksCount tokens idx
      let idx := idx + b2
      let lt ← tkEq tokens idx (.Operator, "<")
      if lt then do
        let (bases, idx) ← basesLoop tokens (tokens.length + 1) (idx + 1) []
        pure (attrs, bases, idx)
      else do
        let nl ← tkEq tokens idx (.Text, "\n")
        pure (attrs, [], if nl then idx + 1 else idx)

/-- The indented-docstring loop of `MatClass.__init__`: consume comment
lines (marker `%` left-stripped), each followed by an optional newline
(kept verbatim in the docstring) and further indentation. -/
def classDocLoop (ts : List Tok) : Nat → Nat → String → Except PErr (String × Nat)
  | 0, _, _ => .error .fuel
  | fuel + 1, idx, acc => do
    let t ← tkAt ts idx
    if t.1 == .Comment then do
      let acc := acc ++ pyLStripChars ['%'] t.2
      let idx := idx + 1
      let nl ← tkEq ts idx (.Text, "\n")
      let (acc, idx) ←
        if nl then do
          let t2 ← tkAt ts idx
          pure (acc ++ t2.2, idx + 1)
        else pure (acc, idx)
      let ind ← indentCount ts idx
      classDocLoop ts fuel (if ind > 0 then idx + ind else idx) acc
    else pure (acc, idx)

/-- The class docstring phase: a docstring is only recognized when the
line is indented; a comment with zero indentation raises
`Exception('Comments must be indented.')`. -/
def classDocPhase (ts : List Tok) (idx : Nat) : Except PErr (String × Nat) := do
  let ind ← indentCount ts idx
  if ind > 0 then
    classDocLoop ts (ts.length + 1) (idx + ind) ""
  else do
    let t ← tkAt ts idx
    if t.1 == .Comment then throw (.exception "Comments must be indented.")
    else pure ("", idx)

/-- The skip-comments-and-whitespace inner loop of the class body
(`while (self._whitespace(idx) or self.tokens[idx][0] is Token.Comment)`). -/
def skipWsComments (ts : List Tok) : Nat → Nat → Except PErr Nat
  | 0, _ => .error .fuel
  | fuel + 1, idx => do
    let w ← whitespaceCount ts idx
    if w > 0 then skipWsComments ts fuel (idx + w)
    else do
      let t ← tkAt ts idx
      if t.1 == .Comment then skipWsComments ts fuel (idx + 1)
      else pure idx

/-- The raw default-value scan of a property
(`while tk_ne (Text, '\n') and tokens[idx][0] is not Comment`). -/
def defaultScan (ts : List Tok) : Nat → Nat → String → Except PErr (String × Nat)
  | 0, _, _ => .error .fuel
  | fuel + 1, idx, acc => do
    let ne ← tkNe ts idx (.Text, "\n")
    let t ← tkAt ts idx
    if ne && !(t.1 == .Comment) then
      defaultScan ts fuel (idx + 1) (acc ++ t.2)
    else pure (acc, idx)

/-- The property loop of a `properties` block
(`while self._tk_ne(idx, (Token.Keyword, 'end'))`): skip
whitespace/comments, require a `Name` token, then the optional
`= <raw default>` (captured verbatim up to newline or comment, right
whitespace-stripped) and the optional same-line comment docstring. -/
def propsLoop (ts : List Tok) (attrDict : List (String × AttrVal)) :
    Nat → Nat → List (String × PropEnt) → Except PErr (List (String × PropEnt) × Nat)
  | 0, _, _ => .error .fuel
  | fuel + 1, idx, props => do
    let ne ← tkNe ts idx (.Keyword, "end")
    if ne then do
      let idx ← skipWsComments ts (ts.length + 1) idx
      let t ← tkAt ts idx
      if t.1 == .Name then do
        let propName := t.2
        let idx := idx + 1
        let b ← blanksCount ts idx
        let idx := idx + b
        let eq ← tkEq ts idx (.Punctuation, "=")
        let (defaultVal, idx) ←
          if eq then do
            let idx := idx + 1
            let b2 ← blanksCount ts idx
            let idx := idx + b2
            let (dstr, idx) ← defaultScan ts (ts.length + 1) idx ""
            let t2 ← tkAt ts idx
            let idx := if t2.1 == .Comment then idx else idx + 1
            pure (if dstr.isEmpty then (none : Option (Option String))
                  else some (some (pyRStrip dstr)), idx)
          else pure (some none, idx)
        let t3 ← tkAt ts idx
        let (docVal, idx) :=
          if t3.1 == .Comment then (some (pyLStripChars ['%'] t3.2), idx + 1)
          else (none, idx)
        let props := updateAssoc props propName
          { attrs := attrDict, defaultVal := defaultVal, docstringVal := docVal }
        let w ← whitespaceCount ts idx
        propsLoop ts attrDict fuel (idx + w) props
      else throw (.typeError "Expected property.")
    else pure (props, idx)

/-- The method loop of a `methods` block: slice the remaining tokens
(`self.tokens[idx:]`), run the function parser on the slice as a
`MatMethod` (declared name `None`), advance by `meth.reset_tokens()`
(= slice length minus leftover length), record the method under the name
taken from its own signature, then skip whitespace. -/
def methodsLoop (ts : List Tok) (modname : String) (attrDict : List (String × AttrVal)) :
    Nat → Nat → List (String × MethodEnt) → Except PErr (List (String × MethodEnt) × Nat)
  | 0, _, _ => .error .fuel
  | fuel + 1, idx, methods => do
    let ne ← tkNe ts idx (.Keyword, "end")
    if ne then do
      let idx ← skipWsComments ts (ts.length + 1) idx
      let slice := ts.drop idx
      let meth ← parseMatFunctionAux true none modname slice
      let (lenMeth, meth) ← resetTokens meth
      let idx := idx + lenMeth
      let methods := updateAssoc methods meth.name { func := meth, attrs := attrDict }
      let w ← whitespaceCount ts idx
      methodsLoop ts modname attrDict fuel (idx + w) methods
    else pure (methods, idx)

/-- The class body loop of `MatClass.__init__`
(`while self._tk_ne(idx, (Token.Keyword, 'end'))`): skip
whitespace/comments, then handle a `properties` block and a `methods`
block if present.  A token that is none of whitespace, comment,
`properties`, `methods` or `end` leaves `idx` unchanged, so the source
loop never terminates on such a token; the fuel counter then runs out. -/
def classBodyLoop (ts : List Tok) (modname : String) :
    Nat → Nat → ClassState → Except PErr (ClassState × Nat)
  | 0, _, _ => .error .fuel
  | fuel + 1, idx, st => do
    let ne ← tkNe ts idx (.Keyword, "end")
    if ne then do
      let idx ← skipWsComments ts (ts.length + 1) idx
      let pEq ← tkEq ts idx (.Keyword, "properties")
      let (st, idx) ←
        if pEq then do
          let (attrDict, idx) ← attributes ts propAttrTypes (idx + 1)
          let (props, idx) ← propsLoop ts attrDict (ts.length + 1) idx st.properties
          pure ({ st with properties := props }, idx + 1)
        else pure (st, idx)
      let mEq ← tkEq ts idx (.Keyword, "methods")
      let (st, idx) ←
        if mEq then do
          let (attrDict, idx) ← attributes ts methAttrTypes (idx + 1)
          let (meths, idx) ← methodsLoop ts modname attrDict (ts.length + 1) idx st.methods
          pure ({ st with methods := meths }, idx + 1)
        else pure (st, idx)
      classBodyLoop ts modname fuel idx st
    else pure (st, idx)

/-- `MatClass.__init__`: signature, docstring, then the body loop until
the class's closing `end`, whose index is recorded in `rem_tks`. -/
def parseClass (name modname : String) (tokens : List Tok) :
    Except PErr ClassEnt := do
  let (attrs, bases, idx) ← classSigPhase name tokens
  let (doc, idx) ← classDocPhase tokens idx
  let (st, idx) ← classBodyLoop tokens modname (tokens.length + 1) idx ⟨[], []⟩
  pure { name := name, module := modname, attrs := attrs, bases := bases,
         docstring := doc, properties := st.properties, methods := st.methods,
         rem_tks := idx }

/-!
## The namespace resolver: `MatObject.matlabify` / `MatObject.parse_mfile`

The filesystem is abstracted to predicates `isdir`/`isfile` and a
tokenizing read `readTokens` (the external Pygments lexer applied to the
file's text).  `os.sep` is `/`.  Reference identity of constructed
`MatModule` objects is captured by an allocation counter: every
`MatModule.__init__` call yields a fresh `objId`, and its registration
`sys.modules[name] = self` is an update of the `sysModules` map keyed by
the module's (leaf) `name` argument. -/

/-- A `MatModule` object: allocation identity, leaf name, folder path, and
dotted package name. -/
structure ModuleEnt where
  objId : Nat
  name : String
  path : String
  package : String
deriving DecidableEq

/-- A `MatScript` (a file starting with neither `function` nor `classdef`). -/
structure ScriptEnt where
  name : String
  path : String
  tks : List Tok
  docstring : String
deriving DecidableEq

/-- The process-wide mutable state touched by resolution: the allocation
counter for object identity and `sys.modules`. -/
structure ResolveState where
  counter : Nat
  sysModules : List (String × ModuleEnt)
deriving DecidableEq

/-- The abstract filesystem consumed by the resolver. -/
structure MatFS where
  isdir : String → Bool
  isfile : String → Bool
  readTokens : String → List Tok

/-- What `matlabify`/`parse_mfile` return: a module, a parsed entity, or
`None`. -/
inductive MatlabifyRes
  | module (m : ModuleEnt)
  | func (f : FuncEnt)
  | cls (c : ClassEnt)
  | script (s : ScriptEnt)
  | none
deriving DecidableEq

/-- Python `s.replace(a, b)` for single characters (used for
`objname.replace('.', os.sep)` and `path.replace(os.sep, '.')`). -/
def pyReplaceChar (s : String) (a b : Char) : String :=
  ⟨s.data.map (fun c => if c == a then b else c)⟩

/-- `os.path.split`: split at the last `/`; no separator gives an empty
directory part. -/
def pySplitPath (p : String) : String × String :=
  let parts := pySplitChar '/' p
  (String.intercalate "/" parts.dropLast, parts.getLastD "")

/-- `os.path.join` for one relative component. -/
def pyJoin (a b : String) : String :=
  if a == "" then b else a ++ "/" ++ b

/-- `MatObject.parse_mfile`: classify the token stream by its first token
and hand it to the function parser, the class parser, or `MatScript`.
Reading `tks[0]` of an empty stream raises `IndexError`. -/
def parse_mfile (fs : MatFS) (mfile : String) (name path : String) :
    Except PErr MatlabifyRes :=
  let tks := fs.readTokens mfile
  let modname := pyReplaceChar path '/' '.'
  match tks with
  | [] => .error .indexError
  | t0 :: _ =>
    if t0 == ((.Keyword, "function") : Tok) then
      (parseMatFunctionAux false (some name) modname tks).map .func
    else if t0 == ((.Keyword, "classdef") : Tok) then
      (parseClass name modname tks).map .cls
    else
      .ok (.script { name := name, path := modname, tks := tks, docstring := "" })

/-- `MatObject.matlabify(basedir, objname)`: empty name returns `None`;
otherwise the dotted name becomes a path, and an existing directory wins
over a same-named `.m` file.  The directory branch constructs a fresh
`MatModule` (new `objId`) and registers it in `sys.modules` under its leaf
name; the file branch parses the file; otherwise `None`. -/
def matlabify (fs : MatFS) (st : ResolveState) (basedir objname : String) :
    Except PErr MatlabifyRes × ResolveState :=
  if objname == "" then (.ok .none, st)
  else
    let package := objname
    let objpath := pyReplaceChar objname '.' '/'
    let pn := pySplitPath objpath
    let fullpath := pyJoin basedir objpath
    if fs.isdir fullpath then
      let m : ModuleEnt :=
        { objId := st.counter, name := pn.2, path := fullpath, package := package }
      (.ok (.module m),
       { counter := st.counter + 1,
         sysModules := updateAssoc st.sysModules pn.2 m })
    else if fs.isfile (fullpath ++ ".m") then
      (parse_mfile fs (fullpath ++ ".m") pn.2 pn.1, st)
    else (.ok .none, st)

/-!
## The base-class resolver: `MatClass.__bases__`

`os.walk` is abstracted to a list of `(root, dirs, files)` steps;
membership of a directory name in `sys.modules` and the member lookup
`sys.modules[m].getter(b)` are abstracted to the parameters `inSysMod`
and `getMember`; `MatObject.parse_mfile` on a like-named file is the
parameter `parse`.  The result type records the source's two very
different outcomes: the per-base-name dictionary, or (on the file branch)
a single parsed entity returned directly by the `return` statement inside
the walk. -/

/-- One `os.walk` step. -/
structure WalkStep where
  root : String
  dirs : List String
  files : List String

/-- What `MatClass.__bases__` returns. -/
inductive BasesResult (α : Type)
  | map (m : List (String × Option α))
  | entity (e : α)
deriving DecidableEq

/-- The inner `for m in dirs` search: the first registered sibling module
whose `getter` resolves the base name. -/
def basesInnerDirs {α : Type} (inSysMod : String → Bool)
    (getMember : String → String → Option α) (b : String) :
    List String → Option α
  | [] => Option.none
  | m :: ms =>
    if inSysMod m then
      match getMember m b with
      | some x => some x
      | Option.none => basesInnerDirs inSysMod getMember b ms
    else basesInnerDirs inSysMod getMember b ms

/-- The `for b in self.bases` loop of one walk step: update the map from
the sibling-module search, and when the base is still unbound and a
like-named `.m` file is in this step's files, `return` the parsed file
directly (abandoning the map). -/
def basesStepLoop {α : Type} (inSysMod : String → Bool)
    (getMember : String → String → Option α)
    (parse : String → String → String → α)
    (root : String) (dirs files : List String) :
    List String → List (String × Option α) →
    Sum (List (String × Option α)) α
  | [], acc => .inl acc
  | b :: bs, acc =>
    let acc :=
      match basesInnerDirs inSysMod getMember b dirs with
      | some x => updateAssoc acc b (some x)
      | Option.none => acc
    match lookupAssoc acc b with
    | some (some _) => basesStepLoop inSysMod getMember parse root dirs files bs acc
    | _ =>
      if files.contains (b ++ ".m") then
        .inr (parse (pyJoin root b ++ ".m") b root)
      else basesStepLoop inSysMod getMember parse root dirs files bs acc

/-- `MatClass.__bases__`: start from `dict.fromkeys(self.bases)` (every
declared base mapped to `None`), then walk the tree; each step filters
version-control directories and non-`.m` files before running the
per-base loop. -/
def classBasesWalk {α : Type} (bases : List String)
    (inSysMod : String → Bool) (getMember : String → String → Option α)
    (parse : String → String → String → α) :
    List WalkStep → List (String × Option α) → BasesResult α
  | [], acc => .map acc
  | step :: rest, acc =>
    let dirs := step.dirs.filter
      (fun d => !([".git", ".hg", ".svn", ".bzr"] : List String).contains d)
    let files := step.files.filter
      (fun f => (".m".data.isSuffixOf f.data : Bool))
    match basesStepLoop inSysMod getMember parse step.root dirs files bases acc with
    | .inl acc => classBasesWalk bases inSysMod getMember parse rest acc
    | .inr e => .entity e

/-- `dict.fromkeys(self.bases)`. -/
def basesFromKeys {α : Type} (bases : List String) : List (String × Option α) :=
  bases.map (fun b => (b, Option.none))

/-- `MatClass.__bases__` entry point over an abstract walk. -/
def classBases {α : Type} (bases : List String)
    (inSysMod : String → Bool) (getMember : String → String → Option α)
    (parse : String → String → String → α) (walk : List WalkStep) :
    BasesResult α :=
  classBasesWalk bases inSysMod getMember parse walk (basesFromKeys bases)

/-!
## The Python class hierarchy and `MatException.__init__`

`MatException.__init__` invokes `super(MatScript, self).__init__(name)`.
Python's two-argument `super(C, obj)` raises
`TypeError: super(type, obj): obj must be an instance or subtype of type`
unless `obj`'s class is a subclass of `C`.  `MatException` derives from
`MatObject`, not from `MatScript`. -/

/-- The classes defined by the module. -/
inductive PyClass
  | matObject
  | matModule
  | matMixin
  | matFunction
  | matClass
  | matProperty
  | matMethod
  | matScript
  | matException
deriving DecidableEq

/-- The declared base classes of each class. -/
def pyBases : PyClass → List PyClass
  | .matObject => []
  | .matMixin => []
  | .matModule => [.matObject]
  | .matFunction => [.matObject]
  | .matClass => [.matMixin, .matObject]
  | .matProperty => [.matObject]
  | .matMethod => [.matFunction]
  | .matScript => [.matObject]
  | .matException => [.matObject]

/-- Reflexive-transitive subclass test over `pyBases` (fuel bounds the
chain length; `9` exceeds the hierarchy's depth). -/
def isSubclassB : Nat → PyClass → PyClass → Bool
  | 0, _, _ => false
  | fuel + 1, c, d =>
    c == d || (pyBases c).any (fun b => isSubclassB fuel b d)

/-- The fields `MatScript.__init__` would set. -/
structure MatScriptFields where
  name : String
  path : String
  tks : List Tok
  docstring : String
deriving DecidableEq

/-- `MatException.__init__(name, path, tks)`: the first statement is
`super(MatScript, self).__init__(name)` with `self` a `MatException`
instance, so the `super` check `issubclass(MatException, MatScript)` runs
before any field assignment; on failure Python raises `TypeError` and no
field is ever initialized. -/
def matExceptionInit (name path : String) (tks : List Tok) :
    Except PErr MatScriptFields :=
  if isSubclassB 9 .matException .matScript then
    .ok { name := name, path := path, tks := tks, docstring := "" }
  else
    .error (.typeError "super(type, obj): obj must be an instance or subtype of type")

/-!
## Structural lemmas about the function parser

The trim protocol of the class parser relies on the fact that the tokens
a successful function parse leaves behind are a nonempty suffix of the
slice it was given, so that advancing by `slice length − leftover length`
puts the cursor exactly at the first leftover token.
-/

theorem bodyScan_ne_nil :
    ∀ (tks : List Tok) (lastkw : Option Tok) (kw : Tok) (n : Nat),
      bodyScan lastkw kw n tks ≠ [] := by
  intro tks
  induction tks with
  | nil =>
    intro lastkw kw n
    unfold bodyScan
    split
    · simp
    · simp
  | cons t rest ih =>
    intro lastkw kw n
    unfold bodyScan
    split
    · simp
    · exact ih (some kw) t (stepKwEnd lastkw kw n)

theorem bodyScan_suffix :
    ∀ (tks : List Tok) (lastkw : Option Tok) (kw : Tok) (n : Nat),
      bodyScan lastkw kw n tks <:+ kw :: tks := by
  intro tks
  induction tks with
  | nil =>
    intro lastkw kw n
    unfold bodyScan
    split
    · exact List.suffix_refl _
    · exact List.suffix_refl _
  | cons t rest ih =>
    intro lastkw kw n
    unfold bodyScan
    split
    · exact List.suffix_refl _
    · exact (ih (some kw) t (stepKwEnd lastkw kw n)).trans (List.suffix_cons _ _)

theorem docAfter_suffix :
    ∀ (ts : List Tok) (acc : String) (res : String × Tok × List Tok),
      docAfter ts acc = .ok res → res.2.1 :: res.2.2 <:+ ts := by
  intro ts
  induction ts with
  | nil => intro acc res h; simp [docAfter] at h
  | cons w rest ih =>
    intro acc res h
    simp only [docAfter] at h
    split at h
    · exact (ih _ _ h).trans (List.suffix_cons _ _)
    · split at h
      · exact (ih _ _ h).trans (List.suffix_cons _ _)
      · have := Except.ok.inj h
        subst this
        exact List.suffix_refl _

theorem docLoop_suffix (ts : List Tok) (acc : String)
    (res : String × Tok × List Tok) (h : docLoop ts acc = .ok res) :
    res.2.1 :: res.2.2 <:+ ts := by
  unfold docLoop at h
  split at h
  · simp at h
  · split at h
    · exact (docAfter_suffix _ _ _ h).trans (List.suffix_cons _ _)
    · have := Except.ok.inj h
      subst this
      exact List.suffix_refl _

theorem finalWs_suffix (name : String) (retv args : Option (List String))
    (tks : List Tok) (res : SigRes) (h : finalWs name retv args tks = .ok res) :
    res.2.2.2 <:+ tks := by
  unfold finalWs at h
  split at h
  · simp at h
  · split at h
    · have := Except.ok.inj h
      subst this
      exact List.suffix_cons _ _
    · simp at h

theorem afterName_suffix (name : String) (retv : Option (List String))
    (tks : List Tok) (res : SigRes)
    (h : afterRetv.afterName name retv tks = .ok res) : res.2.2.2 <:+ tks := by
  unfold afterRetv.afterName at h
  split at h
  · simp at h
  · rename_i op t6
    split at h
    · split at h
      · simp at h
      · rename_i ar t7
        split at h
        · simp at h
        · rename_i cp t8
          split at h
          · exact (finalWs_suffix _ _ _ _ _ h).trans
              ((List.suffix_cons _ _).trans
                ((List.suffix_cons _ _).trans (List.suffix_cons _ _)))
          · simp at h
    · exact (finalWs_suffix _ _ _ _ _ h).trans (List.suffix_cons _ _)

theorem afterRetv_suffix (isMethod : Bool) (declName : Option String)
    (retv : Option (List String)) (tks : List Tok) (res : SigRes)
    (h : afterRetv isMethod declName retv tks = .ok res) : res.2.2.2 <:+ tks := by
  unfold afterRetv at h
  split at h
  · simp at h
  · rename_i fn t5
    split at h
    · exact (afterName_suffix _ _ _ _ h).trans (List.suffix_cons _ _)
    · split at h
      · exact (afterName_suffix _ _ _ _ h).trans (List.suffix_cons _ _)
      · simp at h

theorem parseSigPhase_suffix (isMethod : Bool) (declName : Option String)
    (tks : List Tok) (res : SigRes)
    (h : parseSigPhase isMethod declName tks = .ok res) : res.2.2.2 <:+ tks := by
  unfold parseSigPhase at h
  split at h
  · simp at h
  · rename_i fk t1
    split at h
    · split at h
      · simp at h
      · rename_i w1 t2
        split at h
        · split at h
          · simp at h
          · rename_i rv t3
            split at h
            · split at h
              · simp at h
              · rename_i eqt t4
                split at h
                · split at h
                  · simp at h
                  · rename_i wh t5
                    have hs := afterRetv_suffix _ _ _ _ _ h
                    have hsub : (if wh.1 == TokT.TextWhitespace then t5
                        else wh :: t5) <:+ fk :: w1 :: rv :: eqt :: wh :: t5 := by
                      split
                      · exact (List.suffix_cons _ _).trans
                          ((List.suffix_cons _ _).trans
                            ((List.suffix_cons _ _).trans
                              ((List.suffix_cons _ _).trans (List.suffix_cons _ _))))
                      · exact (List.suffix_cons _ _).trans
                          ((List.suffix_cons _ _).trans
                            ((List.suffix_cons _ _).trans (List.suffix_cons _ _)))
                    exact hs.trans hsub
                · simp at h
            · exact (afterRetv_suffix _ _ _ _ _ h).trans
                ((List.suffix_cons _ _).trans
                  ((List.suffix_cons _ _).trans (List.suffix_cons _ _)))
        · simp at h
    · simp at h

theorem parseMatFunctionAux_rem (isMethod : Bool) (declName : Option String)
    (modname : String) (slice : List Tok) (ent : FuncEnt)
    (h : parseMatFunctionAux isMethod declName modname slice = .ok ent) :
    ∃ r, ent.rem_tks = some r ∧ r ≠ [] ∧ r <:+ slice ∧
      slice.drop (slice.length - r.length) = r ∧ ent.tokens = slice ∧
      (resetTokens ent).map Prod.fst = .ok (slice.length - r.length) := by
  unfold parseMatFunctionAux at h
  split at h
  · simp at h
  · rename_i name retv args t8 heq1
    split at h
    · simp at h
    · rename_i doc kw t9 heq2
      cases hbs : bodyScan none kw 1 t9 with
      | nil => exact absurd hbs (bodyScan_ne_nil t9 none kw 1)
      | cons t rest =>
        rw [hbs] at h
        have hent := Except.ok.inj h
        subst hent
        have hsuf : (t :: rest) <:+ slice := by
          have h1 : (t :: rest) <:+ kw :: t9 := hbs ▸ bodyScan_suffix t9 none kw 1
          have h2 : kw :: t9 <:+ t8 := docLoop_suffix t8 "" (doc, kw, t9) heq2
          have h3 : t8 <:+ slice :=
            parseSigPhase_suffix isMethod declName slice (name, retv, args, t8) heq1
          exact (h1.trans h2).trans h3
        refine ⟨t :: rest, rfl, by simp, hsuf, ?_, rfl, ?_⟩
        · obtain ⟨s, hs⟩ := hsuf
          rw [← hs, List.length_append, Nat.add_sub_cancel, List.drop_left]
        · simp [resetTokens, Except.map]

/-!
## Concrete token streams

These are Pygments token streams for small MATLAB sources, following the
token shapes documented in the source's own signature comment in
`MatFunction.__init__` (signature whitespace is `Token.Text.Whitespace`;
body whitespace and indentation are `Token.Text` tokens of one character).
-/

/-- Tokens of `function y = square(x)\n% squares x\ny = x^2;\nend\n`. -/
def squareToks : List Tok :=
  [(.Keyword, "function"), (.TextWhitespace, " "), (.Text, "y "), (.Punctuation, "="),
   (.TextWhitespace, " "), (.NameFunction, "square"), (.Punctuation, "("), (.Text, "x"),
   (.Punctuation, ")"), (.TextWhitespace, "\n"),
   (.Comment, "% squares x"), (.Text, "\n"),
   (.Name, "y"), (.Text, " "), (.Punctuation, "="), (.Text, " "), (.Name, "x"),
   (.Operator, "^"), (.Number, "2"), (.Punctuation, ";"), (.Text, "\n"),
   (.Keyword, "end"), (.Text, "\n")]

/-- Tokens of `function y = f(x)\nend` with nothing at all after the
closing `end`: a method slice that is consumed in its entirety. -/
def c1Slice : List Tok :=
  [(.Keyword, "function"), (.TextWhitespace, " "), (.Text, "y "), (.Punctuation, "="),
   (.TextWhitespace, " "), (.NameFunction, "f"), (.Punctuation, "("), (.Text, "x"),
   (.Punctuation, ")"), (.TextWhitespace, "\n"), (.Keyword, "end")]

/-- The entity the function parser produces for `c1Slice`. -/
def c1Ent : FuncEnt :=
  { name := "f", module := "m", tokens := c1Slice, retv := some ["y"],
    args := some ["x"], docstring := "", rem_tks := some [(.Keyword, "end")] }

/-- Tokens of the signature `function y = f(x)\n` followed by the given
body tokens. -/
def funcSigToks (body : List Tok) : List Tok :=
  [(.Keyword, "function"), (.TextWhitespace, " "), (.Text, "y "), (.Punctuation, "="),
   (.TextWhitespace, " "), (.NameFunction, "f"), (.Punctuation, "("), (.Text, "x"),
   (.Punctuation, ")"), (.TextWhitespace, "\n")] ++ body

/-- Body `a( end);\nend\n`: the `end` is used as an index, but a blank
token sits between `(` and `end`. -/
def c2EarlyToks : List Tok :=
  funcSigToks
    [(.Name, "a"), (.Punctuation, "("), (.Text, " "), (.Keyword, "end"),
     (.Punctuation, ")"), (.Punctuation, ";"), (.Text, "\n"), (.Keyword, "end"),
     (.Text, "\n")]

/-- Body `a(end);\nend\n` (no blank between `(` and `end`). -/
def c2ParenToks : List Tok :=
  funcSigToks
    [(.Name, "a"), (.Punctuation, "("), (.Keyword, "end"), (.Punctuation, ")"),
     (.Punctuation, ";"), (.Text, "\n"), (.Keyword, "end"), (.Text, "\n")]

/-- Body `a(1:end);\nend\n`. -/
def c2ColonToks : List Tok :=
  funcSigToks
    [(.Name, "a"), (.Punctuation, "("), (.Number, "1"), (.Punctuation, ":"),
     (.Keyword, "end"), (.Punctuation, ")"), (.Punctuation, ";"), (.Text, "\n"),
     (.Keyword, "end"), (.Text, "\n")]

/-- Body `if x\ny=1;\nend\nend\n`: one nested `if ... end`. -/
def c2NestedToks : List Tok :=
  funcSigToks
    [(.Keyword, "if"), (.Text, " "), (.Name, "x"), (.Text, "\n"),
     (.Name, "y"), (.Punctuation, "="), (.Number, "1"), (.Punctuation, ";"),
     (.Text, "\n"), (.Keyword, "end"), (.Text, "\n"), (.Keyword, "end"),
     (.Text, "\n")]

/-- Attribute-list tokens of `(AllowedSubclasses = {?A}) Foo`. -/
def c6Toks : List Tok :=
  [(.Punctuation, "("), (.Name, "AllowedSubclasses"), (.Text, " "),
   (.Punctuation, "="), (.Text, " "), (.Punctuation, "\x7b"), (.Text, "?"),
   (.Name, "A"), (.Punctuation, "\x7d"), (.Punctuation, ")"), (.Text, " "),
   (.Name, "Foo")]

/-- Tokens of `classdef Foo\n  % a class\nend\n` (two one-blank indentation
tokens before the comment). -/
def c7GoodToks : List Tok :=
  [(.Keyword, "classdef"), (.Text, " "), (.Name, "Foo"), (.Text, "\n"),
   (.Text, " "), (.Text, " "), (.Comment, "% a class"), (.Text, "\n"),
   (.Keyword, "end"), (.Text, "\n")]

/-- Tokens of `classdef Foo\nfor\nend`: the class body starts with a
keyword that is neither `properties` nor `methods` (index 4). -/
def c9Toks : List Tok :=
  [(.Keyword, "classdef"), (.Text, " "), (.Name, "Foo"), (.Text, "\n"),
   (.Keyword, "for"), (.Text, "\n"), (.Keyword, "end")]

/-- Tokens of a method `function y = nm(x)\ny=x;\nend` (16 tokens). -/
def methTks (nm : String) : List Tok :=
  [(.Keyword, "function"), (.TextWhitespace, " "), (.Text, "y "), (.Punctuation, "="),
   (.TextWhitespace, " "), (.NameFunction, nm), (.Punctuation, "("), (.Text, "x"),
   (.Punctuation, ")"), (.TextWhitespace, "\n"),
   (.Name, "y"), (.Punctuation, "="), (.Name, "x"), (.Punctuation, ";"), (.Text, "\n"),
   (.Keyword, "end")]

/-- Tokens of a class whose `methods` block declares two methods `a` and
`b` back to back; the closing `end` of the class sits at index 43. -/
def c1ClassToks : List Tok :=
  [(.Keyword, "classdef"), (.Text, " "), (.Name, "Foo"), (.Text, "\n"),
   (.Text, " "), (.Keyword, "methods"), (.Text, "\n")]
  ++ methTks "a" ++ [(.Text, "\n")]
  ++ methTks "b" ++ [(.Text, "\n")]
  ++ [(.Keyword, "end"), (.Text, "\n"), (.Keyword, "end"), (.Text, "\n")]

/-- A filesystem on which every directory and every file exists. -/
def c3FS : MatFS := ⟨fun _ => true, fun _ => true, fun _ => []⟩

/-- A filesystem made only of directories. -/
def c4FS : MatFS := ⟨fun _ => true, fun _ => false, fun _ => []⟩

/-- First resolution of `a.b` from a fresh state. -/
def c4Run1 : Except PErr MatlabifyRes × ResolveState :=
  matlabify c4FS ⟨0, []⟩ "src" "a.b"

/-- Second resolution of the same dotted name from the state the first
one left behind. -/
def c4Run2 : Except PErr MatlabifyRes × ResolveState :=
  matlabify c4FS c4Run1.2 "src" "a.b"

/-- An abstract `parse_mfile` for the base-class walk that records its
arguments `(mfile, name, root)`. -/
def c8Parse : String → String → String → String × String × String :=
  fun m n r => (m, n, r)

/-!
## Claim theorems
-/

/-- Claim C1 (amended): for every successful method parse the function
parser's leftover `rem_tks` is a **nonempty** suffix of the slice it was
handed, the class parser's advance `meth.reset_tokens()` equals
`slice length − leftover length`, and advancing by that count lands the
cursor exactly on the first leftover token; a class whose `methods` block
holds two consecutive methods is parsed with both methods recorded under
their signature names and the cursor reaching the class's closing `end`
(index 43 of `c1ClassToks`).  The amendment: the leftover is never empty —
a method that consumes its entire slice still reports one leftover token
(its own terminating `end`), so the advance is slice length − 1, not slice
length. -/
theorem c1_trim_protocol_amended :
    (∀ (isMethod : Bool) (declName : Option String) (modname : String)
        (slice : List Tok) (ent : FuncEnt),
      parseMatFunctionAux isMethod declName modname slice = .ok ent →
      ∃ r, ent.rem_tks = some r ∧ r ≠ [] ∧ r <:+ slice ∧
        slice.drop (slice.length - r.length) = r ∧ ent.tokens = slice ∧
        (resetTokens ent).map Prod.fst = .ok (slice.length - r.length)) ∧
    (parseClass "Foo" "m" c1ClassToks).map
        (fun c => (c.methods.map Prod.fst, c.rem_tks)) =
      .ok (["a", "b"], 43) :=
  ⟨parseMatFunctionAux_rem, by decide⟩

/-- Claim C1, witness: the universal part applied to the concrete slice
`c1Slice` (a method with one input and one output and an empty body). -/
theorem c1_trim_protocol_witness :
    ∃ r, c1Ent.rem_tks = some r ∧ r ≠ [] ∧ r <:+ c1Slice ∧
      c1Slice.drop (c1Slice.length - r.length) = r ∧ c1Ent.tokens = c1Slice ∧
      (resetTokens c1Ent).map Prod.fst = .ok (c1Slice.length - r.length) :=
  c1_trim_protocol_amended.1 true none "m" c1Slice c1Ent (by decide)

/-- Claim C1, counterexample: `c1Slice` is a complete method with nothing
after its terminating `end`, so the method's body consumes the entire
remaining slice; the claim then expects no leftover tokens and an advance
of the full slice length (11).  Instead the parser reports the method's
own terminating `end` as a single leftover token and
`reset_tokens()` yields 10 = 11 − 1, so the class parser's cursor lands on
the already-consumed `end`. -/
theorem c1_full_slice_counterexample :
    (parseMatFunctionAux true none "m" c1Slice).map (fun f => f.rem_tks) =
      .ok (some [(.Keyword, "end")]) ∧
    ((parseMatFunctionAux true none "m" c1Slice).bind resetTokens).map Prod.fst =
      .ok 10 ∧
    c1Slice.length = 11 :=
  ⟨by decide, by decide, by decide⟩

/-- Claim C2 (amended): the body counter starts at 1; each of
`if`/`while`/`for`/`switch`/`try` increments it; `end` does not decrement
when the **immediately preceding token** (not the preceding significant
token — whitespace tokens count) is `(` or `:`.  Consequently a body with
one nested `if ... end` is fully consumed, and `a(end)` / `a(1:end)`
written without intervening whitespace never close the function early
(only the trailing newline is left over). -/
theorem c2_balancing_amended :
    (parseMatFunctionAux false (some "f") "m" c2NestedToks).map
        (fun f => f.rem_tks) = .ok (some [(.Text, "\n")]) ∧
    (parseMatFunctionAux false (some "f") "m" c2ParenToks).map
        (fun f => f.rem_tks) = .ok (some [(.Text, "\n")]) ∧
    (parseMatFunctionAux false (some "f") "m" c2ColonToks).map
        (fun f => f.rem_tks) = .ok (some [(.Text, "\n")]) ∧
    (∀ n : Nat, stepKwEnd (some (.Punctuation, "(")) (.Keyword, "end") n = n) ∧
    (∀ n : Nat, stepKwEnd (some (.Punctuation, ":")) (.Keyword, "end") n = n) ∧
    (∀ (lastkw : Option Tok) (n : Nat),
      stepKwEnd lastkw (.Keyword, "if") n = n + 1 ∧
      stepKwEnd lastkw (.Keyword, "while") n = n + 1 ∧
      stepKwEnd lastkw (.Keyword, "for") n = n + 1 ∧
      stepKwEnd lastkw (.Keyword, "switch") n = n + 1 ∧
      stepKwEnd lastkw (.Keyword, "try") n = n + 1) :=
  ⟨by decide, by decide, by decide, fun n => rfl, fun n => rfl,
   fun lastkw n => ⟨rfl, rfl, rfl, rfl, rfl⟩⟩

/-- Claim C2, counterexample: in the body `a( end);` the token
immediately preceding `end` is the blank `(Text, ' ')`, while the
immediately preceding **significant** token is `(`.  The claim says such
an `end` never closes the function early; the code compares only the
literally previous token, decrements the counter, and terminates the
function at that `end`: the rest of the body
(`) ; \n end \n`) is left over instead of the single trailing newline. -/
theorem c2_significant_token_counterexample :
    (parseMatFunctionAux false (some "f") "m" c2EarlyToks).map
        (fun f => f.rem_tks) =
      .ok (some [(.Punctuation, ")"), (.Punctuation, ";"), (.Text, "\n"),
                 (.Keyword, "end"), (.Text, "\n")]) ∧
    (some [(.Punctuation, ")"), (.Punctuation, ";"), (.Text, "\n"),
           (.Keyword, "end"), (.Text, "\n")] : Option (List Tok)) ≠
      some [(.Text, "\n")] :=
  ⟨by decide, by decide⟩

/-- Claim C3: in `MatObject.matlabify`, for every source root and dotted
name whose converted path exists both as a directory and as a same-named
`.m` file, resolution returns the Module built from the directory (never
the file-derived entity), and resolving the empty dotted name returns
`None` (not found). -/
theorem c3_dir_over_file :
    (∀ (fs : MatFS) (st : ResolveState) (basedir objname : String),
      objname ≠ "" →
      fs.isdir (pyJoin basedir (pyReplaceChar objname '.' '/')) = true →
      fs.isfile (pyJoin basedir (pyReplaceChar objname '.' '/') ++ ".m") = true →
      (matlabify fs st basedir objname).1 =
        .ok (.module
          { objId := st.counter,
            name := (pySplitPath (pyReplaceChar objname '.' '/')).2,
            path := pyJoin basedir (pyReplaceChar objname '.' '/'),
            package := objname })) ∧
    (∀ (fs : MatFS) (st : ResolveState) (basedir : String),
      (matlabify fs st basedir "").1 = .ok .none) := by
  constructor
  · intro fs st basedir objname hne hdir hfile
    simp [matlabify, hne, hdir]
  · intro fs st basedir
    rfl

/-- Claim C3, witness: on a filesystem where both `src/pkg/Foo` (directory)
and `src/pkg/Foo.m` (file) exist, resolving `pkg.Foo` yields the Module. -/
theorem c3_dir_over_file_witness :
    (matlabify c3FS ⟨0, []⟩ "src" "pkg.Foo").1 =
      .ok (.module
        { objId := 0, name := "Foo", path := "src/pkg/Foo", package := "pkg.Foo" }) :=
  c3_dir_over_file.1 c3FS ⟨0, []⟩ "src" "pkg.Foo" (by decide) (by rfl) (by rfl)

/-- Claim C4 (amended): resolution performs **no** caching.  Every
resolution of a dotted name whose path is a directory constructs a fresh
`MatModule` — its identity is the state counter, which then increments —
and (re)registers it in `sys.modules` keyed by the **leaf** name (not the
dotted package name), overwriting any previous entry; when the path is
not a directory (file parse or not-found), the resolution state is
untouched, so nothing is ever cached for later lookups. -/
theorem c4_resolution_amended :
    (∀ (fs : MatFS) (st : ResolveState) (basedir objname : String),
      objname ≠ "" →
      fs.isdir (pyJoin basedir (pyReplaceChar objname '.' '/')) = true →
      matlabify fs st basedir objname =
        (.ok (.module
           { objId := st.counter,
             name := (pySplitPath (pyReplaceChar objname '.' '/')).2,
             path := pyJoin basedir (pyReplaceChar objname '.' '/'),
             package := objname }),
         { counter := st.counter + 1,
           sysModules := updateAssoc st.sysModules
             (pySplitPath (pyReplaceChar objname '.' '/')).2
             { objId := st.counter,
               name := (pySplitPath (pyReplaceChar objname '.' '/')).2,
               path := pyJoin basedir (pyReplaceChar objname '.' '/'),
               package := objname } })) ∧
    (∀ (fs : MatFS) (st : ResolveState) (basedir objname : String),
      fs.isdir (pyJoin basedir (pyReplaceChar objname '.' '/')) = false →
      (matlabify fs st basedir objname).2 = st) := by
  constructor
  · intro fs st basedir objname hne hdir
    simp [matlabify, hne, hdir]
  · intro fs st basedir objname hdir
    by_cases hobj : objname = ""
    · subst hobj; rfl
    · simp only [matlabify, hdir]
      simp [hobj]
      split
      · rfl
      · rfl

/-- Claim C4, witness: resolving `a.b` from a state with counter 5 builds
the module with identity 5 and registers it under the leaf key `b`. -/
theorem c4_resolution_witness :
    matlabify c4FS ⟨5, []⟩ "src" "a.b" =
      (.ok (.module { objId := 5, name := "b", path := "src/a/b", package := "a.b" }),
       { counter := 6,
         sysModules :=
           [("b", { objId := 5, name := "b", path := "src/a/b", package := "a.b" })] }) :=
  c4_resolution_amended.1 c4FS ⟨5, []⟩ "src" "a.b" (by decide) (by rfl)

/-- Claim C4, counterexample: two successive resolutions of the dotted
name `a.b` return **different** module objects (identities 0 and 1), not
a reference-identical cached result, and the registry after them maps the
leaf name `b` — not the dotted name `a.b` — to the most recent object. -/
theorem c4_no_cache_counterexample :
    c4Run1.1 = .ok (.module { objId := 0, name := "b", path := "src/a/b", package := "a.b" }) ∧
    c4Run2.1 = .ok (.module { objId := 1, name := "b", path := "src/a/b", package := "a.b" }) ∧
    c4Run1.1 ≠ c4Run2.1 ∧
    c4Run2.2.sysModules =
      [("b", { objId := 1, name := "b", path := "src/a/b", package := "a.b" })] ∧
    lookupAssoc c4Run2.2.sysModules "a.b" = none :=
  ⟨by decide, by decide, by decide, by decide, by decide⟩

/-- Claim C5 (amended): the token stream of
`function y = square(x)\n% squares x\ny = x^2;\nend\n` parses to a
Function named `square` with inputs `["x"]`, outputs `["y"]`, and
docstring exactly `" squares x\n"`: `lstrip('%')` removes only the `%`
marker, so the blank that followed it survives, and a newline is
appended; the trailing source newline is the only leftover token. -/
theorem c5_square_amended :
    parseMatFunctionAux false (some "square") "mod" squareToks =
      .ok { name := "square", module := "mod", tokens := squareToks,
            retv := some ["y"], args := some ["x"], docstring := " squares x\n",
            rem_tks := some [(.Text, "\n")] } := by decide

/-- Claim C5, counterexample: the parsed docstring is `" squares x\n"`,
which differs from the claimed `"squares x\n"` — the blank after the `%`
marker is not stripped. -/
theorem c5_docstring_counterexample :
    (parseMatFunctionAux false (some "square") "mod" squareToks).map
        (fun f => f.docstring) = .ok " squares x\n" ∧
    (" squares x\n" : String) ≠ "squares x\n" :=
  ⟨by decide, by decide⟩

/-- Claim C6: on the attribute entry `AllowedSubclasses = {?A}` (a
recognized list-valued attribute) the attribute parser does not return a
list binding at all — the name was bound to the boolean `True`
placeholder, and the cell-array branch's `attr_dict[attr_name].append(...)`
raises `AttributeError` because a boolean has no `append` (the collected
value, `"?A})"`, has moreover run past the closing brace, since the inner
scan only stops at blank/tab/comma). -/
theorem c6_cell_attr_crash :
    attributes c6Toks clsAttrTypes 0 = .error .attributeError ∧
    ("AllowedSubclasses", AttrKind.list) ∈ clsAttrTypes :=
  ⟨by decide, by decide⟩

/-- Claim C7: whenever the token right after the `classdef Foo` signature
line is a comment with zero blank/tab indentation, the class parser
raises `Exception('Comments must be indented.')` — for every comment text
and every continuation of the stream, so no Class entity is produced;
with indented comment lines the class parses and the docstring is their
concatenation with the `%` markers stripped and newlines preserved. -/
theorem c7_unindented_comment :
    (∀ (c : String) (rest : List Tok),
      parseClass "Foo" "m"
        ((.Keyword, "classdef") :: (.Text, " ") :: (.Name, "Foo") ::
          (.Text, "\n") :: (.Comment, c) :: rest) =
        .error (.exception "Comments must be indented.")) ∧
    (parseClass "Foo" "m" c7GoodToks).map (fun c => c.docstring) =
      .ok " a class\n" := by
  refine ⟨?_, by decide⟩
  intro c rest
  rfl

/-- Claim C8: when a base class is resolved from a like-named file during
the source-tree walk, `MatClass.__bases__` executes
`return MatObject.parse_mfile(...)` — it returns the parsed entity
itself, discarding the per-base-name dictionary (and every other base)
instead of binding the entity inside it; a base that nothing resolves
does remain present with a `None` binding when the walk finds no
like-named file. -/
theorem c8_bases_file_return :
    classBases ["B"] (fun _ => false) (fun _ _ => none) c8Parse
        [⟨"r", [], ["B.m"]⟩] =
      .entity ("r/B.m", "B", "r") ∧
    classBases ["B", "C"] (fun _ => false) (fun _ _ => none) c8Parse
        [⟨"r", [".git"], ["B.txt"]⟩] =
      .map [("B", none), ("C", none)] :=
  ⟨by decide, by decide⟩

/-- Claim C9: a class body token that is neither whitespace, comment,
`properties`, `methods` nor `end` (here the keyword `for` at index 4)
leaves the body loop's index unchanged, so the source loop never
terminates: the embedded loop exhausts **every** fuel value, and the
class parse produces no Class entity. -/
theorem c9_body_loop_divergence :
    (∀ (fuel : Nat) (st : ClassState),
      classBodyLoop c9Toks "m" fuel 4 st = .error .fuel) ∧
    parseClass "Foo" "m" c9Toks = .error .fuel ∧
    c9Toks[4]? = some (.Keyword, "for") := by
  refine ⟨?_, by decide, by decide⟩
  intro fuel
  induction fuel with
  | zero => intro st; rfl
  | succ n ih => intro st; exact ih st

/-- Claim C10: for every argument triple, `MatException.__init__` raises
`TypeError` before initializing any field: its first statement is
`super(MatScript, self).__init__(name)`, and since `MatException` is not
a subclass of `MatScript` (both derive directly from `MatObject`),
Python's `super(type, obj)` check fails; hence no `MatException` object
is ever created. -/
theorem c10_matexception_unconstructible :
    (∀ (name path : String) (tks : List Tok),
      matExceptionInit name path tks =
        .error (.typeError
          "super(type, obj): obj must be an instance or subtype of type")) ∧
    isSubclassB 9 .matException .matScript = false :=
  ⟨fun name path tks => rfl, rfl⟩
